import Mathlib

/-!
# Media search resolver (`Utility.cpp`)

A shallow embedding of `Assets/MagicLeap/BackgroundMusicExample/Utility.cpp`:
the helper class `SelfInfo` and the function `SearchMedia`.

* A `std::string` is a list of characters.
* The two platform services the code calls are inputs of the model: the
  filesystem (what `stat` answers for each path) and the outcome of
  `MLLifecycleGetSelfInfo`.
* Calls with an outside effect (`stat`, `MLLifecycleGetSelfInfo`,
  `MLLifecycleFreeSelfInfo`) are recorded, in order, in a trace of events.
* A C++ `throw`, a `std::out_of_range` from `substr` and a call of `back()` on
  an empty string end a run with an `Exn` instead of a value.
* `ML_LOG` calls only write to the log and never change control flow; they are
  left out.
-/

namespace Utility

/-- A `std::string`. -/
abbrev Str := List Char

/-- Modelled from the spec: the platform header that declares `MLResult` and its
enumerators is not among the sources. Every failure of the construction
signals the one kind of error that `SearchMedia` swallows, so the two
enumerators the code names are values of the one type `MLResult`, the type the
handler of `SearchMedia` catches; any other result code is `Other n`. -/
inductive MLResult where
  | MLResult_Ok
  | MLResult_UnspecifiedFailure
  | Other (code : Nat)
  deriving DecidableEq, Repr

/-- The record `MLLifecycleSelfInfo` the platform hands back; only the three
fields the code reads. -/
structure MLLifecycleSelfInfo where
  package_dir_path : Str
  writable_dir_path_locked_and_unlocked : Str
  writable_dir_path : Str
  deriving DecidableEq, Repr

/-- What one call `MLLifecycleGetSelfInfo(&_info)` does: the code it returns and
the pointer it leaves in `_info` (`none` is `nullptr`, that is, no structure
was handed back). -/
structure QueryOutcome where
  result : MLResult
  info : Option MLLifecycleSelfInfo
  deriving DecidableEq, Repr

/-- The part of `struct stat` the code reads. -/
structure Stat where
  st_mode : Nat
  deriving DecidableEq, Repr

/-- The filesystem as `stat` sees it: `none` when `stat` fails on the path,
`some m` when it succeeds and reports `st_mode = m`. -/
abbrev FileSystem := Str → Option Nat

/-- The environment of one call of `SearchMedia`. -/
structure Platform where
  fs : FileSystem
  selfInfoQuery : QueryOutcome

/-- Calls with an effect outside the program, as recorded in the trace. -/
inductive Event where
  | stat (path : Str)
  | getSelfInfo
  | freeSelfInfo
  deriving DecidableEq, Repr

/-- The ways a run ends without a value. -/
inductive Exn where
  /-- A thrown `MLResult` (`throw result;`). -/
  | mlResult (r : MLResult)
  /-- The exception `std::out_of_range` of `substr(pos)` with `pos > size()`. -/
  | out_of_range
  /-- The call `back()` on an empty string. -/
  | back_of_empty
  deriving DecidableEq, Repr

/-- A computation: from the trace so far to a value or an `Exn`, and the trace
extended by the events of the computation. The trace survives a throw. -/
def Prog (α : Type) : Type := List Event → Except Exn α × List Event

namespace Prog

/-- Return a value, no event. -/
def ret {α : Type} (a : α) : Prog α := fun t => (.ok a, t)

/-- Sequencing: the second computation runs only when the first gave a value. -/
def andThen {α β : Type} (x : Prog α) (f : α → Prog β) : Prog β := fun t =>
  match x t with
  | (.ok a, t1) => f a t1
  | (.error e, t1) => (.error e, t1)

/-- The statement `throw`. -/
def raise {α : Type} (e : Exn) : Prog α := fun t => (.error e, t)

/-- Record one event. -/
def emit (e : Event) : Prog Unit := fun t => (.ok (), t ++ [e])

/-- Run a pure step that can fail. -/
def ofExcept {α : Type} : Except Exn α → Prog α
  | .ok a => ret a
  | .error e => raise e

/-- The block `try { body } catch (const MLResult& result) { handler }`: only a
thrown `MLResult` is caught. -/
def tryCatchMLResult {α : Type} (body : Prog α) (handler : MLResult → Prog α) : Prog α := fun t =>
  match body t with
  | (.error (.mlResult r), t1) => handler r t1
  | other => other

/-- Run from the empty trace. -/
def run {α : Type} (x : Prog α) : Except Exn α × List Event := x []

end Prog

instance : Monad Prog where
  pure := Prog.ret
  bind := Prog.andThen

/-- The call `s.substr(pos, n)` (`n = none` for `s.substr(pos)`): throws when
`pos > s.size()`. -/
def substr (s : Str) (pos : Nat) (n : Option Nat) : Except Exn Str :=
  if pos ≤ s.length then
    match n with
    | none => .ok (s.drop pos)
    | some k => .ok ((s.drop pos).take k)
  else .error .out_of_range

/-- The call `s.back()`: defined only on a non-empty string. -/
def back (s : Str) : Except Exn Char :=
  match s.getLast? with
  | some c => .ok c
  | none => .error .back_of_empty

/-- The mask `S_IFMT` of `<sys/stat.h>` (octal 0170000). -/
def S_IFMT : Nat := 61440

/-- The file type `S_IFREG` of `<sys/stat.h>` (octal 0100000). -/
def S_IFREG : Nat := 32768

/-- The file type `S_IFDIR` of `<sys/stat.h>` (octal 0040000). -/
def S_IFDIR : Nat := 16384

/-- The macro `S_ISREG(m)`: `((m) & S_IFMT) == S_IFREG`. -/
def S_ISREG (m : Nat) : Bool := (m &&& S_IFMT) == S_IFREG

/-- The call `memset(&statInfo, 0, sizeof(struct stat))`. -/
def memset0 (_statInfo : Stat) : Stat := { st_mode := 0 }

/-- The call `stat(path.c_str(), &statInfo)`: on success returns `0` and fills
the buffer, on failure returns `-1` and leaves the buffer as it was. -/
def stat (pf : Platform) (path : Str) (statInfo : Stat) : Prog (Int × Stat) := do
  Prog.emit (.stat path)
  match pf.fs path with
  | some m => return (0, { st_mode := m })
  | none => return (-1, statInfo)

/-- The condition `stat(path.c_str(), &statInfo) == 0 || S_ISREG(statInfo.st_mode)`
of the four probes, on the buffer it is given; returns the buffer as left by
the call. -/
def existsCheck (pf : Platform) (path : Str) (statInfo : Stat) : Prog (Bool × Stat) := do
  let (rc, statInfo) ← stat pf path statInfo
  return (rc == 0 || S_ISREG statInfo.st_mode, statInfo)

/-- The call `MLLifecycleGetSelfInfo(&_info)`. -/
def MLLifecycleGetSelfInfo (pf : Platform) : Prog (MLResult × Option MLLifecycleSelfInfo) := do
  Prog.emit .getSelfInfo
  return (pf.selfInfoQuery.result, pf.selfInfoQuery.info)

/-- The call `MLLifecycleFreeSelfInfo(&_info)`. -/
def MLLifecycleFreeSelfInfo : Prog Unit := Prog.emit .freeSelfInfo

/-- The class `SelfInfo`: its three private members. -/
structure SelfInfo where
  _packageDirPath : Str
  _writableDirPathLockedAndUnlocked : Str
  _writableDirPath : Str
  deriving DecidableEq, Repr

namespace SelfInfo

/-- The constructor `SelfInfo::SelfInfo()`. -/
def new (pf : Platform) : Prog SelfInfo := do
  let (result, _info) ← MLLifecycleGetSelfInfo pf
  if result ≠ .MLResult_Ok then
    Prog.raise (.mlResult result)
  else
  match _info with
  | none => Prog.raise (.mlResult result)
  | some info =>
    let _packageDirPath := info.package_dir_path
    let _writableDirPathLockedAndUnlocked := info.writable_dir_path_locked_and_unlocked
    let _writableDirPath := info.writable_dir_path
    MLLifecycleFreeSelfInfo
    if _packageDirPath.isEmpty || _writableDirPathLockedAndUnlocked.isEmpty
        || _writableDirPath.isEmpty then
      Prog.raise (.mlResult .MLResult_UnspecifiedFailure)
    else
      return { _packageDirPath, _writableDirPathLockedAndUnlocked, _writableDirPath }

/-- The accessor `PackageDirPath()`. -/
def PackageDirPath (self : SelfInfo) : Str := self._packageDirPath

/-- The accessor `WritableDirPathLockedAndUnlocked()`. -/
def WritableDirPathLockedAndUnlocked (self : SelfInfo) : Str :=
  self._writableDirPathLockedAndUnlocked

/-- The accessor `WritableDirPath()`. -/
def WritableDirPath (self : SelfInfo) : Str := self._writableDirPath

end SelfInfo

/-- The step `if (path.back() != '/') { path += "/"; }` that the three
self-location probes share. -/
def ensureSeparator (path : Str) : Except Exn Str := do
  if (← back path) ≠ '/' then
    return path ++ "/".toList
  else
    return path

/-- The candidate of the package-resources probe: `path = dir;` the separator
step, then `path += std::string("resources/") + uri;`. -/
def packageCandidate (dir uri : Str) : Except Exn Str := do
  let path ← ensureSeparator dir
  return path ++ ("resources/".toList ++ uri)

/-- The candidate of the two writable-directory probes: `path = dir;` the
separator step, then `path += uri;`. -/
def writableCandidate (dir uri : Str) : Except Exn Str := do
  let path ← ensureSeparator dir
  return path ++ uri

/-- The function `SearchMedia`. -/
def SearchMedia (pf : Platform) (uri : Str) : Prog Str := do
  let statInfo : Stat := { st_mode := 0 }
  -- online path
  if (← Prog.ofExcept (substr uri 0 (some 7))) = "http://".toList then
    return uri
  else
  if (← Prog.ofExcept (substr uri 0 (some 8))) = "https://".toList then
    return uri
  else
  if (← Prog.ofExcept (substr uri 0 (some 7))) = "rtsp://".toList then
    return uri
  else
  -- local media filepaths may optionally be prepended "file://"; just skip
  let uri ← (do
    if (← Prog.ofExcept (substr uri 0 (some 7))) = "file://".toList then
      Prog.ofExcept (substr uri 7 none)
    else
      pure uri)
  -- try absolute path
  let path := uri
  let statInfo := memset0 statInfo
  let (found, statInfo) ← existsCheck pf path statInfo
  if found then
    return path
  else
  let selfInfo? ← Prog.tryCatchMLResult
    (do let selfInfo ← SelfInfo.new pf; pure (some selfInfo))
    (fun _result => pure none)
  match selfInfo? with
  | none => return []
  | some selfInfo =>
  -- try <selfInfo->package_dir_path>/resources/<path>
  let path ← Prog.ofExcept (packageCandidate selfInfo.PackageDirPath uri)
  let statInfo := memset0 statInfo
  let (found, statInfo) ← existsCheck pf path statInfo
  if found then
    return path
  else
  -- try <selfInfo->writable_dir_path_locked_and_unlocked>/<path>
  let path ← Prog.ofExcept (writableCandidate selfInfo.WritableDirPathLockedAndUnlocked uri)
  let statInfo := memset0 statInfo
  let (found, statInfo) ← existsCheck pf path statInfo
  if found then
    return path
  else
  -- try <selfInfo->writable_dir_path>/<path>
  let path ← Prog.ofExcept (writableCandidate selfInfo.WritableDirPath uri)
  let statInfo := memset0 statInfo
  let (found, _) ← existsCheck pf path statInfo
  if found then
    return path
  else
  -- file not found in folders searched
  return []

/-! ## Observations and specification predicates -/

/-- The paths probed with `stat`, in order, in a trace. -/
def statPaths : List Event → List Str
  | [] => []
  | .stat p :: t => p :: statPaths t
  | _ :: t => statPaths t

/-- How often `MLLifecycleFreeSelfInfo` was called in a trace. -/
def freeCount (t : List Event) : Nat := t.count .freeSelfInfo

/-- The identifier begins with one of the three online schemes. -/
def IsOnline (uri : Str) : Prop :=
  "http://".toList <+: uri ∨ "https://".toList <+: uri ∨ "rtsp://".toList <+: uri

instance (uri : Str) : Decidable (IsOnline uri) := by
  unfold IsOnline
  infer_instance

/-- The string `s` is `u` with one leading `file://` removed if present. -/
def StripsTo (u s : Str) : Prop :=
  u = "file://".toList ++ s ∨ (¬ "file://".toList <+: u ∧ s = u)

instance (u s : Str) : Decidable (StripsTo u s) := by
  unfold StripsTo
  infer_instance

/-- The directory `d` with a trailing `/` ensured, in the words of the
specification. -/
def withSlash (d : Str) : Str :=
  if d.getLast? = some '/' then d else d ++ ['/']

/-- The query returned `MLResult_Ok` with a record whose three paths are all
non-empty. -/
def QueryValid (q : QueryOutcome) : Prop :=
  ∃ info, q.result = .MLResult_Ok ∧ q.info = some info ∧ info.package_dir_path ≠ []
    ∧ info.writable_dir_path_locked_and_unlocked ≠ [] ∧ info.writable_dir_path ≠ []

instance (q : QueryOutcome) : Decidable (QueryValid q) :=
  match h : q.info with
  | none => isFalse (fun ⟨_, _, hi, _⟩ => by rw [h] at hi; cases hi)
  | some info =>
    if hv : q.result = .MLResult_Ok ∧ info.package_dir_path ≠ []
        ∧ info.writable_dir_path_locked_and_unlocked ≠ [] ∧ info.writable_dir_path ≠ [] then
      isTrue ⟨info, hv.1, h, hv.2⟩
    else
      isFalse (fun ⟨i, hr, hi, hp⟩ => by
        rw [h] at hi
        cases hi
        exact hv ⟨hr, hp⟩)

/-! ## Example platforms -/

/-- The mode of a regular file with permissions 0644 (octal 0100644). -/
def modeRegular : Nat := 33188

/-- The mode of a directory with permissions 0755 (octal 0040755). -/
def modeDirectory : Nat := 16877

/-- A filesystem with the regular file `/tmp/x.mp3`, the directories `/tmp`
and `/pkg/resources/music`, and nothing else. -/
def fsExample : FileSystem := fun p =>
  if p = "/tmp/x.mp3".toList then some modeRegular
  else if p = "/tmp".toList then some modeDirectory
  else if p = "/pkg/resources/music".toList then some modeDirectory
  else none

/-- A filesystem where `song.mp3` is present under the package resources and
under the writable directory. -/
def fsPackaged : FileSystem := fun p =>
  if p = "/pkg/resources/song.mp3".toList then some modeRegular
  else if p = "/doc/C2/song.mp3".toList then some modeRegular
  else none

/-- A successful answer of the self-info query. -/
def queryOk : QueryOutcome :=
  { result := .MLResult_Ok,
    info := some { package_dir_path := "/pkg".toList,
                   writable_dir_path_locked_and_unlocked := "/doc/C1/".toList,
                   writable_dir_path := "/doc/C2".toList } }

/-- A failed query that hands nothing back. -/
def queryFailed : QueryOutcome := { result := .Other 7, info := none }

/-- A query that reports an error and still leaves a record in `_info`. -/
def queryErrorWithRecord : QueryOutcome := { queryOk with result := .Other 7 }

/-- A successful query whose record has an empty writable path. -/
def queryEmptyPath : QueryOutcome :=
  { result := .MLResult_Ok,
    info := some { package_dir_path := "/pkg".toList,
                   writable_dir_path_locked_and_unlocked := "/doc/C1/".toList,
                   writable_dir_path := [] } }

/-! ## Running the building blocks -/

theorem Prog.pure_apply {α : Type} (a : α) (t : List Event) :
    (pure a : Prog α) t = (.ok a, t) := rfl

theorem Prog.bind_apply {α β : Type} (x : Prog α) (f : α → Prog β) (t : List Event) :
    (x >>= f) t = match x t with
      | (.ok a, t1) => f a t1
      | (.error e, t1) => (.error e, t1) := rfl

theorem Prog.ofExcept_ok {α : Type} (a : α) (t : List Event) :
    Prog.ofExcept (.ok a) t = (.ok a, t) := rfl

theorem Prog.ofExcept_error {α : Type} (e : Exn) (t : List Event) :
    (Prog.ofExcept (.error e) : Prog α) t = (.error e, t) := rfl

theorem Prog.ite_apply {α : Type} (c : Prop) [Decidable c] (x y : Prog α) (t : List Event) :
    (if c then x else y) t = if c then x t else y t := by
  split <;> rfl

theorem Prog.tryCatch_some {α : Type} (b : Prog α) (t : List Event) :
    Prog.tryCatchMLResult (do let x ← b; pure (some x)) (fun _ => pure none) t
      = match b t with
        | (.ok a, t1) => (.ok (some a), t1)
        | (.error (.mlResult _), t1) => (.ok none, t1)
        | (.error e, t1) => (.error e, t1) := by
  unfold Prog.tryCatchMLResult
  simp only [Prog.bind_apply, Prog.pure_apply]
  rcases b t with ⟨r, t1⟩
  rcases r with e | a
  · cases e <;> rfl
  · rfl

theorem substr_zero (s : Str) (n : Nat) : substr s 0 (some n) = .ok (s.take n) := by
  simp [substr]

theorem take_eq_iff_begins (p s : Str) (n : Nat) (hn : p.length = n) :
    s.take n = p ↔ p <+: s := by
  subst hn
  rw [List.prefix_iff_eq_take]
  exact eq_comm

theorem isOnline_iff_take (uri : Str) :
    IsOnline uri ↔ (uri.take 7 = "http://".toList ∨ uri.take 8 = "https://".toList
      ∨ uri.take 7 = "rtsp://".toList) := by
  unfold IsOnline
  rw [take_eq_iff_begins _ _ 7 (by decide), take_eq_iff_begins _ _ 8 (by decide),
    take_eq_iff_begins _ _ 7 (by decide)]

theorem stripsTo_cases {u s : Str} (h : StripsTo u s) :
    (u.take 7 = "file://".toList ∧ substr u 7 none = .ok s) ∨
    (u.take 7 ≠ "file://".toList ∧ s = u) := by
  rcases h with h | ⟨h1, h2⟩
  · left
    subst h
    exact ⟨rfl, by simp [substr]⟩
  · right
    rw [← take_eq_iff_begins _ _ 7 (by decide)] at h1
    exact ⟨h1, h2⟩

theorem stripsTo_exists (u : Str) : ∃ s, StripsTo u s := by
  by_cases h : "file://".toList <+: u
  · obtain ⟨s, hs⟩ := h
    exact ⟨s, Or.inl hs.symm⟩
  · exact ⟨u, Or.inr ⟨h, rfl⟩⟩

/-- One probe on a zero-filled buffer: it passes exactly when `stat` succeeds. -/
theorem existsCheck_memset0 (pf : Platform) (path : Str) (b : Stat) (t : List Event) :
    existsCheck pf path (memset0 b) t
      = (.ok ((pf.fs path).isSome,
          match pf.fs path with | some m => { st_mode := m } | none => { st_mode := 0 }),
         t ++ [.stat path]) := by
  cases h : pf.fs path <;>
    simp [existsCheck, stat, Prog.bind_apply, Prog.pure_apply, Prog.emit, h, memset0, S_ISREG,
      S_IFMT, S_IFREG]

/-- The constructor, run from any trace. -/
theorem SelfInfo.new_apply (pf : Platform) (t : List Event) :
    SelfInfo.new pf t =
      if pf.selfInfoQuery.result ≠ .MLResult_Ok then
        (.error (.mlResult pf.selfInfoQuery.result), t ++ [.getSelfInfo])
      else match pf.selfInfoQuery.info with
        | none => (.error (.mlResult pf.selfInfoQuery.result), t ++ [.getSelfInfo])
        | some info =>
          if info.package_dir_path = [] ∨ info.writable_dir_path_locked_and_unlocked = []
              ∨ info.writable_dir_path = [] then
            (.error (.mlResult .MLResult_UnspecifiedFailure), t ++ [.getSelfInfo, .freeSelfInfo])
          else
            (.ok ⟨info.package_dir_path, info.writable_dir_path_locked_and_unlocked,
                info.writable_dir_path⟩, t ++ [.getSelfInfo, .freeSelfInfo]) := by
  unfold SelfInfo.new
  simp only [Prog.bind_apply, MLLifecycleGetSelfInfo, Prog.emit, Prog.pure_apply,
    MLLifecycleFreeSelfInfo, Prog.ite_apply]
  by_cases h1 : pf.selfInfoQuery.result = .MLResult_Ok
  · simp only [h1, ne_eq, not_true_eq_false, if_false]
    cases h2 : pf.selfInfoQuery.info with
    | none => rfl
    | some info =>
      simp only [Prog.bind_apply, Prog.ite_apply, Prog.pure_apply]
      by_cases h3 : info.package_dir_path = [] ∨ info.writable_dir_path_locked_and_unlocked = []
          ∨ info.writable_dir_path = []
      · have h4 : (info.package_dir_path.isEmpty
            || info.writable_dir_path_locked_and_unlocked.isEmpty
            || info.writable_dir_path.isEmpty) = true := by
          simpa [List.isEmpty_iff, or_assoc] using h3
        rw [if_pos h3]
        simp only [Prog.emit, h4, if_true, Prog.raise]
        simp
      · have h4 : ¬ (info.package_dir_path.isEmpty
            || info.writable_dir_path_locked_and_unlocked.isEmpty
            || info.writable_dir_path.isEmpty) = true := by
          simpa [List.isEmpty_iff, and_assoc] using h3
        rw [if_neg h3]
        simp only [Prog.emit, h4, if_false]
        simp
  · simp [h1, Prog.raise]

/-- A constructed `SelfInfo` holds three non-empty paths. -/
theorem SelfInfo.new_ok_nonempty (pf : Platform) (t : List Event) (si : SelfInfo)
    (h : (SelfInfo.new pf t).1 = .ok si) :
    si.PackageDirPath ≠ [] ∧ si.WritableDirPathLockedAndUnlocked ≠ []
      ∧ si.WritableDirPath ≠ [] := by
  rw [SelfInfo.new_apply] at h
  by_cases h1 : pf.selfInfoQuery.result = .MLResult_Ok
  · cases h2 : pf.selfInfoQuery.info with
    | none => simp [h1, h2] at h
    | some info =>
      by_cases h3 : info.package_dir_path = [] ∨ info.writable_dir_path_locked_and_unlocked = []
          ∨ info.writable_dir_path = []
      · simp [h1, h2, h3] at h
      · simp only [h1, h2, ne_eq, not_true_eq_false, if_false, if_neg h3] at h
        cases h
        push_neg at h3
        exact h3
  · simp [h1] at h

theorem back_ok (s : Str) (hs : s ≠ []) : ∃ c, back s = .ok c := by
  unfold back
  cases h : s.getLast? with
  | none => exact absurd (List.getLast?_eq_none_iff.mp h) hs
  | some c => exact ⟨c, rfl⟩

theorem ensureSeparator_eq (d : Str) (hd : d ≠ []) : ensureSeparator d = .ok (withSlash d) := by
  unfold ensureSeparator back withSlash
  obtain ⟨c, hc⟩ : ∃ c, d.getLast? = some c := by
    cases h : d.getLast? with
    | none => exact absurd (List.getLast?_eq_none_iff.mp h) hd
    | some c => exact ⟨c, rfl⟩
  rw [hc]
  by_cases h : c = '/'
  · subst h; rfl
  · simp [h, bind, Except.bind, pure, Except.pure]

theorem withSlash_idem (d : Str) : withSlash (withSlash d) = withSlash d := by
  by_cases ha : d.getLast? = some '/'
  · simp only [withSlash, ha, if_true]
  · have hb : (d ++ ['/']).getLast? = some '/' := List.getLast?_concat d
    simp only [withSlash, ha, if_false, hb, if_true]

theorem packageCandidate_eq (d uri : Str) (hd : d ≠ []) :
    packageCandidate d uri = .ok (withSlash d ++ ("resources/".toList ++ uri)) := by
  unfold packageCandidate
  rw [ensureSeparator_eq d hd]
  rfl

theorem writableCandidate_eq (d uri : Str) (hd : d ≠ []) :
    writableCandidate d uri = .ok (withSlash d ++ uri) := by
  unfold writableCandidate
  rw [ensureSeparator_eq d hd]
  rfl

/-! ## Running `SearchMedia` -/

theorem SearchMedia_online (pf : Platform) (uri : Str) (t : List Event)
    (h : IsOnline uri) :
    SearchMedia pf uri t = (.ok uri, t) := by
  rw [isOnline_iff_take] at h
  unfold SearchMedia
  simp only [Prog.bind_apply, Prog.pure_apply, substr_zero, Prog.ofExcept_ok, Prog.ite_apply]
  split_ifs <;> first | rfl | simp_all

/-- A local identifier: the run from the direct probe on, in closed form. -/
theorem SearchMedia_local (pf : Platform) (u s : Str) (t : List Event)
    (h : ¬ IsOnline u) (hs : StripsTo u s) :
    SearchMedia pf u t =
      if (pf.fs s).isSome = true then (.ok s, t ++ [.stat s])
      else
        match SelfInfo.new pf (t ++ [.stat s]) with
        | (.error (.mlResult _), t1) => (.ok [], t1)
        | (.error e, t1) => (.error e, t1)
        | (.ok selfInfo, t1) =>
          match packageCandidate selfInfo.PackageDirPath s with
          | .error e => (.error e, t1)
          | .ok p1 =>
            if (pf.fs p1).isSome = true then (.ok p1, t1 ++ [.stat p1])
            else
              match writableCandidate selfInfo.WritableDirPathLockedAndUnlocked s with
              | .error e => (.error e, t1 ++ [.stat p1])
              | .ok p2 =>
                if (pf.fs p2).isSome = true then (.ok p2, t1 ++ [.stat p1, .stat p2])
                else
                  match writableCandidate selfInfo.WritableDirPath s with
                  | .error e => (.error e, t1 ++ [.stat p1, .stat p2])
                  | .ok p3 =>
                    if (pf.fs p3).isSome = true then
                      (.ok p3, t1 ++ [.stat p1, .stat p2, .stat p3])
                    else (.ok [], t1 ++ [.stat p1, .stat p2, .stat p3]) := by
  rw [isOnline_iff_take] at h
  push_neg at h
  obtain ⟨ha, hb, hc⟩ := h
  have hstrip : (if u.take 7 = "file://".toList then Prog.ofExcept (substr u 7 none) t
      else (Except.ok u, t)) = (.ok s, t) := by
    rcases stripsTo_cases hs with ⟨h1, h2⟩ | ⟨h1, h2⟩
    · rw [if_pos h1, h2]; rfl
    · rw [if_neg h1, h2]
  unfold SearchMedia
  simp only [Prog.bind_apply, Prog.pure_apply, substr_zero, Prog.ofExcept_ok, Prog.ite_apply,
    ha, hb, hc, if_false, hstrip, existsCheck_memset0, Prog.tryCatch_some]
  by_cases hfs : (pf.fs s).isSome = true
  · simp only [hfs, if_true]
  · rw [if_neg hfs, if_neg hfs]
    generalize SelfInfo.new pf (t ++ [.stat s]) = res
    rcases res with ⟨r, t1⟩
    rcases r with e | selfInfo
    · cases e <;> rfl
    · simp only []
      rcases packageCandidate selfInfo.PackageDirPath s with e | p1
      · rfl
      · simp only [Prog.bind_apply, Prog.ite_apply, Prog.pure_apply, Prog.ofExcept_ok,
          existsCheck_memset0]
        by_cases h1 : (pf.fs p1).isSome = true
        · simp only [h1, if_true]
        · rw [if_neg h1, if_neg h1]
          rcases writableCandidate selfInfo.WritableDirPathLockedAndUnlocked s with e | p2
          · rfl
          · simp only [Prog.bind_apply, Prog.ite_apply, Prog.pure_apply, Prog.ofExcept_ok,
              existsCheck_memset0]
            by_cases h2 : (pf.fs p2).isSome = true
            · simp [h2]
            · rw [if_neg h2, if_neg h2]
              rcases writableCandidate selfInfo.WritableDirPath s with e | p3
              · simp [Prog.ofExcept_error]
              · simp only [Prog.bind_apply, Prog.ite_apply, Prog.pure_apply, Prog.ofExcept_ok,
                  existsCheck_memset0]
                by_cases h3 : (pf.fs p3).isSome = true
                · simp [h3]
                · simp [h3]

/-- A local identifier with a valid self-location record `(P, L, W)`: the four
probes in order, in closed form. -/
theorem SearchMedia_located (pf : Platform) (u s P L W : Str) (t : List Event)
    (h : ¬ IsOnline u) (hs : StripsTo u s)
    (hq : pf.selfInfoQuery = ⟨.MLResult_Ok, some ⟨P, L, W⟩⟩)
    (hP : P ≠ []) (hL : L ≠ []) (hW : W ≠ []) :
    SearchMedia pf u t =
      if (pf.fs s).isSome = true then (.ok s, t ++ [.stat s])
      else if (pf.fs (withSlash P ++ ("resources/".toList ++ s))).isSome = true then
        (.ok (withSlash P ++ ("resources/".toList ++ s)),
          t ++ [.stat s, .getSelfInfo, .freeSelfInfo,
            .stat (withSlash P ++ ("resources/".toList ++ s))])
      else if (pf.fs (withSlash L ++ s)).isSome = true then
        (.ok (withSlash L ++ s),
          t ++ [.stat s, .getSelfInfo, .freeSelfInfo,
            .stat (withSlash P ++ ("resources/".toList ++ s)), .stat (withSlash L ++ s)])
      else if (pf.fs (withSlash W ++ s)).isSome = true then
        (.ok (withSlash W ++ s),
          t ++ [.stat s, .getSelfInfo, .freeSelfInfo,
            .stat (withSlash P ++ ("resources/".toList ++ s)), .stat (withSlash L ++ s),
            .stat (withSlash W ++ s)])
      else
        (.ok [],
          t ++ [.stat s, .getSelfInfo, .freeSelfInfo,
            .stat (withSlash P ++ ("resources/".toList ++ s)), .stat (withSlash L ++ s),
            .stat (withSlash W ++ s)]) := by
  have hnew : SelfInfo.new pf (t ++ [.stat s])
      = (.ok ⟨P, L, W⟩, t ++ [.stat s] ++ [.getSelfInfo, .freeSelfInfo]) := by
    rw [SelfInfo.new_apply, hq]
    simp [hP, hL, hW]
  rw [SearchMedia_local pf u s t h hs, hnew]
  simp only [SelfInfo.PackageDirPath, SelfInfo.WritableDirPathLockedAndUnlocked,
    SelfInfo.WritableDirPath, packageCandidate_eq P s hP, writableCandidate_eq L s hL,
    writableCandidate_eq W s hW, List.append_assoc, List.cons_append, List.nil_append]

/-- A local identifier whose direct probe fails while the constructor throws:
the empty string, and the trace ends with the constructor. -/
theorem SearchMedia_unlocated (pf : Platform) (u s : Str) (t : List Event)
    (h : ¬ IsOnline u) (hs : StripsTo u s) (hfs : pf.fs s = none)
    (hq : ¬ QueryValid pf.selfInfoQuery) :
    SearchMedia pf u t = (.ok [], t ++ [.stat s, .getSelfInfo]) ∨
    SearchMedia pf u t = (.ok [], t ++ [.stat s, .getSelfInfo, .freeSelfInfo]) := by
  rw [SearchMedia_local pf u s t h hs, SelfInfo.new_apply]
  simp only [hfs, Option.isSome_none, Bool.false_eq_true, if_false]
  by_cases h1 : pf.selfInfoQuery.result = .MLResult_Ok
  · cases h2 : pf.selfInfoQuery.info with
    | none => left; simp [h1]
    | some info =>
      have h3 : info.package_dir_path = [] ∨ info.writable_dir_path_locked_and_unlocked = []
          ∨ info.writable_dir_path = [] := by
        by_contra hc
        push_neg at hc
        exact hq ⟨info, h1, h2, hc.1, hc.2.1, hc.2.2⟩
      right
      simp [h1, h3]
  · left; simp [h1]

/-! ## The claims -/

/-- C1: an identifier that begins with `http://`, `https://` or `rtsp://` is
returned unchanged, whatever the filesystem and the self-info query would
answer, and the run records no event at all: no `stat` probe and no self-info
query. -/
theorem C1_online_returned_unchanged (pf : Platform) (uri : Str) (h : IsOnline uri) :
    (SearchMedia pf uri).run = (.ok uri, []) :=
  SearchMedia_online pf uri [] h

/-- C1 at `https://example.com/a.mp3`, on a platform whose query would fail. -/
theorem C1_online_returned_unchanged_witness :
    IsOnline "https://example.com/a.mp3".toList ∧
    (SearchMedia ⟨fsExample, queryFailed⟩ "https://example.com/a.mp3".toList).run
      = (.ok "https://example.com/a.mp3".toList, []) :=
  ⟨Or.inr (Or.inl ⟨"example.com/a.mp3".toList, rfl⟩),
   C1_online_returned_unchanged ⟨fsExample, queryFailed⟩ _
     (Or.inr (Or.inl ⟨"example.com/a.mp3".toList, rfl⟩))⟩

/-- C2: for a local identifier `u` with `s` its `file://`-stripped form, if `s`
exists as a regular file then `SearchMedia` returns exactly `s`; the only event
of the run is the `stat` of `s`, so the self-location provider is never
constructed, and the run is the same for every outcome `q` of the platform
query. -/
theorem C2_direct_regular_file (fs : FileSystem) (q : QueryOutcome) (u s : Str) (m : Nat)
    (h : ¬ IsOnline u) (hs : StripsTo u s) (hm : fs s = some m) (_hreg : S_ISREG m = true) :
    (SearchMedia ⟨fs, q⟩ u).run = (.ok s, [.stat s]) := by
  have := SearchMedia_local ⟨fs, q⟩ u s [] h hs
  simpa [Prog.run, hm] using this

/-- C2 at `file:///tmp/x.mp3` and at the absolute path `/tmp/x.mp3`, with a
query that would fail and one that would succeed. -/
theorem C2_direct_regular_file_witness :
    (SearchMedia ⟨fsExample, queryFailed⟩ "file:///tmp/x.mp3".toList).run
        = (.ok "/tmp/x.mp3".toList, [.stat "/tmp/x.mp3".toList]) ∧
    (SearchMedia ⟨fsExample, queryOk⟩ "/tmp/x.mp3".toList).run
        = (.ok "/tmp/x.mp3".toList, [.stat "/tmp/x.mp3".toList]) :=
  ⟨C2_direct_regular_file fsExample queryFailed "file:///tmp/x.mp3".toList "/tmp/x.mp3".toList
      modeRegular (by decide) (Or.inl rfl) rfl (by decide),
   C2_direct_regular_file fsExample queryOk "/tmp/x.mp3".toList "/tmp/x.mp3".toList
      modeRegular (by decide) (Or.inr ⟨by decide, rfl⟩) rfl (by decide)⟩

/-- C3, the code at a failing input: `/tmp` is a directory, not a regular file,
and the direct probe returns it; `/pkg/resources/music` is a directory and the
package-resources probe returns it. -/
theorem C3_directory_is_returned :
    fsExample "/tmp".toList = some modeDirectory ∧ S_ISREG modeDirectory = false ∧
    (SearchMedia ⟨fsExample, queryOk⟩ "/tmp".toList).run
      = (.ok "/tmp".toList, [.stat "/tmp".toList]) ∧
    fsExample "/pkg/resources/music".toList = some modeDirectory ∧
    (SearchMedia ⟨fsExample, queryOk⟩ "music".toList).run.1
      = .ok "/pkg/resources/music".toList :=
  ⟨rfl, by decide, rfl, rfl, rfl⟩

/-- C4: for a local identifier `u` with stripped form `s` and a successful
self-location record `(P, L, W)`, the result is the first of `s`,
`dir(P) + "resources/" + s`, `dir(L) + s`, `dir(W) + s`, in this order, on
which `stat` succeeds, and the empty string when it succeeds on none. In
particular: when the direct path is absent, a file under the package resources
wins over the writable directories; a file only under `W` resolves to
`dir(W) + s`; a file in none of the four places resolves to the empty string. -/
theorem C4_first_passing_candidate (pf : Platform) (u s P L W : Str)
    (h : ¬ IsOnline u) (hs : StripsTo u s)
    (hq : pf.selfInfoQuery = ⟨.MLResult_Ok, some ⟨P, L, W⟩⟩)
    (hP : P ≠ []) (hL : L ≠ []) (hW : W ≠ []) :
    (SearchMedia pf u).run.1 = .ok
      (([s, withSlash P ++ "resources/".toList ++ s, withSlash L ++ s, withSlash W ++ s].find?
          (fun p => (pf.fs p).isSome)).getD [])
    ∧ (pf.fs s = none → (pf.fs (withSlash P ++ "resources/".toList ++ s)).isSome = true →
        (SearchMedia pf u).run.1 = .ok (withSlash P ++ "resources/".toList ++ s))
    ∧ (pf.fs s = none → pf.fs (withSlash P ++ "resources/".toList ++ s) = none →
        pf.fs (withSlash L ++ s) = none → (pf.fs (withSlash W ++ s)).isSome = true →
        (SearchMedia pf u).run.1 = .ok (withSlash W ++ s))
    ∧ (pf.fs s = none → pf.fs (withSlash P ++ "resources/".toList ++ s) = none →
        pf.fs (withSlash L ++ s) = none → pf.fs (withSlash W ++ s) = none →
        (SearchMedia pf u).run.1 = .ok []) := by
  have key := SearchMedia_located pf u s P L W [] h hs hq hP hL hW
  simp only [Prog.run, key, List.append_assoc]
  generalize withSlash P ++ ("resources/".toList ++ s) = c1
  generalize withSlash L ++ s = c2
  generalize withSlash W ++ s = c3
  refine ⟨?_, ?_, ?_, ?_⟩
  · cases h0 : (pf.fs s).isSome <;> cases h1 : (pf.fs c1).isSome <;>
      cases h2 : (pf.fs c2).isSome <;> cases h3 : (pf.fs c3).isSome <;>
      simp [List.find?, h0, h1, h2, h3]
  · intro h0 h1
    simp [h0, h1]
  · intro h0 h1 h2 h3
    simp [h0, h1, h2, h3]
  · intro h0 h1 h2 h3
    simp [h0, h1, h2, h3]

/-- C4 at `song.mp3`, present under the package resources and under the
writable directory: the package-resources path is returned. -/
theorem C4_first_passing_candidate_witness :
    (SearchMedia ⟨fsPackaged, queryOk⟩ "song.mp3".toList).run.1
      = .ok "/pkg/resources/song.mp3".toList :=
  (C4_first_passing_candidate ⟨fsPackaged, queryOk⟩ "song.mp3".toList "song.mp3".toList
    "/pkg".toList "/doc/C1/".toList "/doc/C2".toList
    (by decide) (Or.inr ⟨by decide, rfl⟩) rfl
    (by decide) (by decide) (by decide)).1.trans rfl

/-- C5: for a local identifier whose stripped path fails the direct probe, when
the construction of `SelfInfo` fails (the query reports an error, or leaves a
null record, or the record has an empty path), `SearchMedia` returns the empty
string as a value (no exception leaves it), and the only path probed in the
whole run is the direct one. -/
theorem C5_construction_failure_gives_empty (pf : Platform) (u s : Str)
    (h : ¬ IsOnline u) (hs : StripsTo u s) (hfs : pf.fs s = none)
    (hfail : pf.selfInfoQuery.result ≠ .MLResult_Ok ∨ pf.selfInfoQuery.info = none ∨
      ∃ info, pf.selfInfoQuery.info = some info ∧
        (info.package_dir_path = [] ∨ info.writable_dir_path_locked_and_unlocked = []
          ∨ info.writable_dir_path = [])) :
    (SearchMedia pf u).run.1 = .ok [] ∧ statPaths (SearchMedia pf u).run.2 = [s] := by
  have hq : ¬ QueryValid pf.selfInfoQuery := by
    rintro ⟨info, h1, h2, h3, h4, h5⟩
    rcases hfail with hf | hf | ⟨info2, hf, hg⟩
    · exact hf h1
    · rw [hf] at h2; cases h2
    · rw [hf] at h2
      cases h2
      rcases hg with hg | hg | hg
      · exact h3 hg
      · exact h4 hg
      · exact h5 hg
  rcases SearchMedia_unlocated pf u s [] h hs hfs hq with hr | hr <;>
    simp [Prog.run, hr, statPaths]

/-- C5 at `song.mp3`, with a query that reports an error and with a query whose
record has an empty path. -/
theorem C5_construction_failure_gives_empty_witness :
    ((SearchMedia ⟨fsExample, queryFailed⟩ "song.mp3".toList).run.1 = .ok [] ∧
      statPaths (SearchMedia ⟨fsExample, queryFailed⟩ "song.mp3".toList).run.2
        = ["song.mp3".toList]) ∧
    ((SearchMedia ⟨fsExample, queryEmptyPath⟩ "song.mp3".toList).run.1 = .ok [] ∧
      statPaths (SearchMedia ⟨fsExample, queryEmptyPath⟩ "song.mp3".toList).run.2
        = ["song.mp3".toList]) :=
  ⟨C5_construction_failure_gives_empty ⟨fsExample, queryFailed⟩ "song.mp3".toList
      "song.mp3".toList (by decide) (Or.inr ⟨by decide, rfl⟩) rfl (Or.inl (by decide)),
   C5_construction_failure_gives_empty ⟨fsExample, queryEmptyPath⟩ "song.mp3".toList
      "song.mp3".toList (by decide) (Or.inr ⟨by decide, rfl⟩) rfl
      (Or.inr (Or.inr ⟨_, rfl, Or.inr (Or.inr rfl)⟩))⟩

/-- C6: the constructor of `SelfInfo` yields an object exactly when the query
returned `MLResult_Ok` with a non-null record whose three paths are non-empty;
the three accessors of the object then return exactly those three strings, all
non-empty; in every other case the constructor throws an `MLResult` and yields
no object. -/
theorem C6_selfInfo_all_or_nothing (pf : Platform) :
    ((∃ si, (SelfInfo.new pf).run.1 = .ok si) ↔ QueryValid pf.selfInfoQuery) ∧
    (∀ si, (SelfInfo.new pf).run.1 = .ok si →
      ∃ info, pf.selfInfoQuery.info = some info ∧
        si.PackageDirPath = info.package_dir_path ∧
        si.WritableDirPathLockedAndUnlocked = info.writable_dir_path_locked_and_unlocked ∧
        si.WritableDirPath = info.writable_dir_path ∧
        si.PackageDirPath ≠ [] ∧ si.WritableDirPathLockedAndUnlocked ≠ [] ∧
        si.WritableDirPath ≠ []) ∧
    (¬ QueryValid pf.selfInfoQuery → ∃ r, (SelfInfo.new pf).run.1 = .error (.mlResult r)) := by
  unfold Prog.run QueryValid
  rw [SelfInfo.new_apply]
  by_cases h1 : pf.selfInfoQuery.result = .MLResult_Ok
  · cases h2 : pf.selfInfoQuery.info with
    | none => simp [h1]
    | some info =>
      by_cases h3 : info.package_dir_path = [] ∨ info.writable_dir_path_locked_and_unlocked = []
          ∨ info.writable_dir_path = []
      · simp only [h1, ne_eq, not_true_eq_false, if_false, if_pos h3]
        refine ⟨?_, ?_, ?_⟩
        · constructor
          · rintro ⟨si, hsi⟩; cases hsi
          · rintro ⟨info2, -, hi, ha, hb, hc⟩
            cases hi
            rcases h3 with h3 | h3 | h3
            · exact absurd h3 ha
            · exact absurd h3 hb
            · exact absurd h3 hc
        · intro si hsi; cases hsi
        · intro _; exact ⟨_, rfl⟩
      · simp only [h1, ne_eq, not_true_eq_false, if_false, if_neg h3]
        push_neg at h3
        refine ⟨?_, ?_, ?_⟩
        · constructor
          · intro _; exact ⟨info, trivial, rfl, h3.1, h3.2.1, h3.2.2⟩
          · intro _; exact ⟨_, rfl⟩
        · intro si hsi
          cases hsi
          exact ⟨info, rfl, rfl, rfl, rfl, h3.1, h3.2.1, h3.2.2⟩
        · intro hn
          exact absurd ⟨info, trivial, rfl, h3.1, h3.2.1, h3.2.2⟩ hn
  · simp [h1]

/-- C7: for a non-empty directory `d`, the separator step leaves `d` as it is
when `d` ends with `/` and appends exactly one `/` otherwise, so the candidate
is `d + rest` in the first case and `d + "/" + rest` in the second (`rest` is
`"resources/" + identifier` for the package directory, the identifier for the
writable directories); the step applied to its own result changes nothing; and
these candidates are the paths `SearchMedia` probes after the direct one. -/
theorem C7_separator_exactly_once (d rest : Str) (hd : d ≠ []) :
    (d.getLast? = some '/' →
        ensureSeparator d = .ok d ∧
        packageCandidate d rest = .ok (d ++ ("resources/".toList ++ rest)) ∧
        writableCandidate d rest = .ok (d ++ rest)) ∧
    (d.getLast? ≠ some '/' →
        ensureSeparator d = .ok (d ++ "/".toList) ∧
        packageCandidate d rest = .ok (d ++ "/".toList ++ ("resources/".toList ++ rest)) ∧
        writableCandidate d rest = .ok (d ++ "/".toList ++ rest)) ∧
    (∀ d1, ensureSeparator d = .ok d1 → ensureSeparator d1 = .ok d1) ∧
    (∀ u, ¬ IsOnline u → StripsTo u rest →
      ∃ p w, packageCandidate d rest = .ok p ∧ writableCandidate d rest = .ok w ∧
        statPaths (SearchMedia ⟨fun _ => none, ⟨.MLResult_Ok, some ⟨d, d, d⟩⟩⟩ u).run.2
          = [rest, p, w, w]) := by
  refine ⟨?_, ?_, ?_, ?_⟩
  · intro h
    rw [packageCandidate_eq d rest hd, writableCandidate_eq d rest hd, ensureSeparator_eq d hd]
    simp [withSlash, h]
  · intro h
    rw [packageCandidate_eq d rest hd, writableCandidate_eq d rest hd, ensureSeparator_eq d hd]
    simp [withSlash, h]
  · intro d1 h1
    rw [ensureSeparator_eq d hd] at h1
    cases h1
    have hne : withSlash d ≠ [] := by
      unfold withSlash
      split_ifs
      · exact hd
      · simp
    rw [ensureSeparator_eq _ hne]
    rw [withSlash_idem]
  · intro u hu hs
    refine ⟨_, _, packageCandidate_eq d rest hd, writableCandidate_eq d rest hd, ?_⟩
    rw [Prog.run, SearchMedia_located ⟨fun _ => none, ⟨.MLResult_Ok, some ⟨d, d, d⟩⟩⟩ u rest d d d []
      hu hs rfl hd hd hd]
    simp [statPaths]

/-- C7 at the directory `/pkg`, which does not end with a separator. -/
theorem C7_separator_exactly_once_witness :
    packageCandidate "/pkg".toList "song.mp3".toList = .ok "/pkg/resources/song.mp3".toList :=
  ((C7_separator_exactly_once "/pkg".toList "song.mp3".toList (by decide)).2.1
    (by decide)).2.1

/-- C8, the claim at a failing input: the query reports an error and leaves a
record in `_info`; the constructor throws without calling the release. -/
theorem C8_error_with_record_not_released :
    queryErrorWithRecord.info.isSome = true ∧
    (SelfInfo.new ⟨fsExample, queryErrorWithRecord⟩).run
      = (.error (.mlResult (.Other 7)), [.getSelfInfo]) ∧
    freeCount (SelfInfo.new ⟨fsExample, queryErrorWithRecord⟩).run.2 = 0 :=
  ⟨rfl, rfl, rfl⟩

/-- C8 as amended: when the query returns `MLResult_Ok` and hands back a record,
the constructor calls the release exactly once, after the query and as its last
event, whether it then succeeds or throws; when no record is handed back the
release is not called; and when the query reports an error the constructor
throws before the release, which is not called. -/
theorem C8_release_once_after_successful_query (pf : Platform) :
    (pf.selfInfoQuery.result = .MLResult_Ok → pf.selfInfoQuery.info.isSome = true →
      (SelfInfo.new pf).run.2 = [.getSelfInfo, .freeSelfInfo] ∧
      freeCount (SelfInfo.new pf).run.2 = 1) ∧
    (pf.selfInfoQuery.info = none → freeCount (SelfInfo.new pf).run.2 = 0) ∧
    (pf.selfInfoQuery.result ≠ .MLResult_Ok → freeCount (SelfInfo.new pf).run.2 = 0) := by
  unfold Prog.run
  rw [SelfInfo.new_apply]
  refine ⟨?_, ?_, ?_⟩
  · intro h1 h2
    obtain ⟨info, hi⟩ := Option.isSome_iff_exists.mp h2
    simp only [h1, hi, ne_eq, not_true_eq_false, if_false]
    split_ifs <;> exact ⟨rfl, rfl⟩
  · intro h2
    simp only [h2]
    split_ifs <;> rfl
  · intro h1
    rw [if_pos h1]
    rfl

/-- C9: on the zero-filled buffer each probe passes exactly when `stat` succeeds
on the candidate (on a stale buffer holding a regular-file mode the same check
would pass a failed `stat`); hence every non-empty result of `SearchMedia` for
a local identifier is a path on which `stat` succeeded. -/
theorem C9_result_is_a_path_stat_accepts (pf : Platform) (u r : Str)
    (h : ¬ IsOnline u) (hr : (SearchMedia pf u).run.1 = .ok r) (hne : r ≠ []) :
    (∀ path buf t, ∃ b, (existsCheck pf path (memset0 buf) t).1
        = .ok ((pf.fs path).isSome, b)) ∧
    (∀ path t, pf.fs path = none →
      ∃ b, (existsCheck pf path { st_mode := S_IFREG } t).1 = .ok (true, b)) ∧
    (pf.fs r).isSome = true := by
  refine ⟨?_, ?_, ?_⟩
  · intro path buf t
    rw [existsCheck_memset0]
    exact ⟨_, rfl⟩
  · intro path t hp
    refine ⟨{ st_mode := S_IFREG }, ?_⟩
    have hreg : S_ISREG S_IFREG = true := by decide
    simp [existsCheck, stat, Prog.bind_apply, Prog.pure_apply, Prog.emit, hp, hreg]
  · obtain ⟨s, hs⟩ := stripsTo_exists u
    rw [Prog.run, SearchMedia_local pf u s [] h hs] at hr
    repeat' split at hr
    all_goals simp_all

/-- C9 at `file:///tmp/x.mp3`: the result `/tmp/x.mp3` is a path `stat` accepts. -/
theorem C9_result_is_a_path_stat_accepts_witness :
    (fsExample "/tmp/x.mp3".toList).isSome = true :=
  (C9_result_is_a_path_stat_accepts ⟨fsExample, queryOk⟩ "file:///tmp/x.mp3".toList
    "/tmp/x.mp3".toList (by decide) rfl (by decide)).2.2

/-- C10: for every identifier, filesystem and query outcome `SearchMedia` ends
with a returned string, never with `std::out_of_range`, a call of `back()` on
an empty string or an escaping exception: `substr(0, n)` is defined for every
length, `substr(7)` is defined whenever the `file://` test passed, and `back()`
is defined on each directory of a constructed `SelfInfo`. The model does fault
outside these conditions: `substr(7)` on a three-character string and `back()`
on the empty string. -/
theorem C10_searchMedia_always_returns (pf : Platform) (uri : Str) :
    (∃ r, (SearchMedia pf uri).run.1 = .ok r) ∧
    (∀ n, substr uri 0 (some n) = .ok (uri.take n)) ∧
    (uri.take 7 = "file://".toList → ∃ s, substr uri 7 none = .ok s) ∧
    (∀ si, (SelfInfo.new pf).run.1 = .ok si →
      ∃ c1 c2 c3, back si.PackageDirPath = .ok c1 ∧
        back si.WritableDirPathLockedAndUnlocked = .ok c2 ∧ back si.WritableDirPath = .ok c3) ∧
    substr "abc".toList 7 none = .error .out_of_range ∧
    back [] = .error .back_of_empty := by
  refine ⟨?_, fun n => substr_zero uri n, ?_, ?_, rfl, rfl⟩
  · by_cases h : IsOnline uri
    · exact ⟨uri, by rw [Prog.run, SearchMedia_online pf uri [] h]⟩
    · obtain ⟨s, hs⟩ := stripsTo_exists uri
      by_cases hq : QueryValid pf.selfInfoQuery
      · obtain ⟨info, h1, h2, hP, hL, hW⟩ := hq
        have hq2 : pf.selfInfoQuery = ⟨.MLResult_Ok, some ⟨info.package_dir_path,
            info.writable_dir_path_locked_and_unlocked, info.writable_dir_path⟩⟩ := by
          rcases hpq : pf.selfInfoQuery with ⟨r, i⟩
          rw [hpq] at h1 h2
          simp only at h1 h2
          rw [h1, h2]
        rw [Prog.run, SearchMedia_located pf uri s _ _ _ [] h hs hq2 hP hL hW]
        split_ifs <;> exact ⟨_, rfl⟩
      · cases hfs : pf.fs s with
        | none =>
          rcases SearchMedia_unlocated pf uri s [] h hs hfs hq with hr | hr <;>
            exact ⟨[], by rw [Prog.run, hr]⟩
        | some m =>
          refine ⟨s, ?_⟩
          rw [Prog.run, SearchMedia_local pf uri s [] h hs]
          simp [hfs]
  · intro h7
    have hlen : 7 ≤ uri.length := by
      by_contra hlt
      have : (uri.take 7).length = 7 := by rw [h7]; rfl
      rw [List.length_take] at this
      omega
    exact ⟨uri.drop 7, by simp [substr, hlen]⟩
  · intro si hsi
    obtain ⟨n1, n2, n3⟩ := SelfInfo.new_ok_nonempty pf [] si hsi
    obtain ⟨c1, h1⟩ := back_ok _ n1
    obtain ⟨c2, h2⟩ := back_ok _ n2
    obtain ⟨c3, h3⟩ := back_ok _ n3
    exact ⟨c1, c2, c3, h1, h2, h3⟩

end Utility
